import Mathlib

/-!
Verification of the AgentRPC polling agent (Node SDK `sdk-node/src/polling.ts`,
`sdk-node/src/agentrpc.ts`; Go SDK `sdk-go/polling.go`, `sdk-go/agentrpc.go`)
against its natural-language specification.

The two SDK implementations are embedded shallowly: pure control flow is
translated function-by-function from the source; transport calls are modelled
by their observable protocol outcomes (HTTP status, headers, body); wall-clock
time measurement is not modelled (execution-time metadata is carried as a `Nat`
that the embedding does not constrain).
-/

/-- Splitting a character list at every underscore, keeping empty segments;
the common semantics of JavaScript `"…".split("_")` and Go
`strings.Split(s, "_")` for the one-character separator both SDKs use. -/
def splitUnderscoreAux : List Char → List Char → List (List Char)
  | [], acc => [acc.reverse]
  | c :: rest, acc =>
    if c = '_' then acc.reverse :: splitUnderscoreAux rest []
    else splitUnderscoreAux rest (c :: acc)

/-- `s.split("_")` (JavaScript) / `strings.Split(s, "_")` (Go). -/
def splitUnderscore (s : String) : List String :=
  (splitUnderscoreAux s.toList []).map (fun cs => String.mk cs)

/-- A JSON value, the payload universe of job inputs and results. -/
inductive JsonValue where
  | null : JsonValue
  | bool (b : Bool) : JsonValue
  | num (n : Int) : JsonValue
  | str (s : String) : JsonValue
  | arr (items : List JsonValue) : JsonValue
  | obj (fields : List (String × JsonValue)) : JsonValue

/-- Field lookup in a JSON object; `none` on non-objects. -/
def JsonValue.lookupField : JsonValue → String → Option JsonValue
  | .obj fields, key => fields.lookup key
  | _, _ => none

/-- A JavaScript `Error` as far as serialization is concerned: its `name` and
`message`. Modelled from the spec: the `serialize-error` module is not under
`src/`; the spec requires serialized errors to carry at minimum `name` and
`message` (stack traces are not modelled). -/
structure JsError where
  name : String
  message : String

/-- Modelled from the spec: `serialize-error`/`serializeError` (not under
`src/`) turns an error into a plain JSON object carrying at minimum its
`name` and `message`. -/
def serializeError (e : JsError) : JsonValue :=
  .obj [("name", .str e.name), ("message", .str e.message)]

namespace NodeSDK

/-- `sdk-node/src/polling.ts` lines 15-19: a job message received from the
poll response. `input?: unknown` is an optional JSON payload. -/
structure JobMessage where
  id : String
  function : String
  input : Option JsonValue

/-- The three outcome classifications (`Result.type` in `execute-fn.ts`,
`resultType` on the wire). -/
inductive ResultType where
  | resolution : ResultType
  | rejection : ResultType
  | interrupt : ResultType
deriving DecidableEq

/-- The `Result` shape produced by `executeFn` and posted by `onComplete`
(`polling.ts` lines 154-186): classification, content, and execution time. -/
structure ExecResult where
  type : ResultType
  content : JsonValue
  functionExecutionTime : Nat

/-- What a registered handler does with a validated input: return a value,
throw an error, or return the special interrupt shape. This is the abstract
observable behaviour of the user-supplied `handler` callable. -/
inductive HandlerBehavior where
  | value (v : JsonValue) : HandlerBehavior
  | thrown (e : JsError) : HandlerBehavior
  | interrupt (p : JsonValue) : HandlerBehavior

/-- Modelled from the spec: `execute-fn.ts`/`executeFn` is not under `src/`.
Per spec §4.4, a thrown/error-typed result is classified `rejection` with the
serialized error as payload, an interrupt shape is classified `interrupt`
with its structured content, and anything else is a `resolution` carrying the
return value; wall-clock time is measured around the call (carried here as an
uninterpreted `t`). -/
def executeFn (behavior : HandlerBehavior) (t : Nat) : ExecResult :=
  match behavior with
  | .value v => ⟨.resolution, v, t⟩
  | .thrown e => ⟨.rejection, serializeError e, t⟩
  | .interrupt p => ⟨.interrupt, p, t⟩

/-- A tool registration as consumed by the polling agent
(`ToolRegistrationInput`): name, stored schema (represented by its validation
behaviour), handler, and informational metadata. `validate` is modelled from
the spec: `util.ts`/`validateFunctionArgs` is not under `src/`; it validates
the payload against the stored schema and on failure throws a validation
error (serialized like any other error). -/
structure ToolRegistration where
  name : String
  validate : JsonValue → Option JsError
  handler : JsonValue → HandlerBehavior
  description : Option String
  config : Option JsonValue

/-- `polling.ts` line 197: `typeof args !== "object" || Array.isArray(args)
|| args === null`. In JavaScript only non-null, non-array objects pass:
`undefined` (absent input), `null`, arrays, and primitives are all rejected. -/
def isStructuredObject : Option JsonValue → Bool
  | some (.obj _) => true
  | _ => false

/-- `polling.ts` line 209: the error message used when the input payload is
not an object. -/
def invalidFormatMessage : String :=
  "Function was called with invalid invalid format. Expected an object."

/-- The observable effect of `processCall`: the results posted via
`createJobResult` (as `(jobId, result)` pairs, in order) and whether the
registered handler was invoked. -/
structure CallOutcome where
  posted : List (String × ExecResult)
  handlerInvoked : Bool

/-- `polling.ts` lines 138-239, `PollingAgent.processCall`: look up the tool
by name (unknown names are logged and dropped with no post); reject non-object
payloads with a serialized error and `functionExecutionTime` 0; validate
against the stored schema and reject failures without invoking the handler;
otherwise execute the handler via `executeFn` and post its classified result.
`execTime` stands for the wall-clock duration measured by `executeFn`. -/
def processCall (tools : List ToolRegistration) (call : JobMessage)
    (execTime : Nat) : CallOutcome :=
  match tools.find? (fun fn => fn.name == call.function) with
  | none => ⟨[], false⟩
  | some registration =>
    if !(isStructuredObject call.input) then
      ⟨[(call.id, ⟨.rejection, serializeError ⟨"Error", invalidFormatMessage⟩, 0⟩)], false⟩
    else
      let args := call.input.getD .null
      match registration.validate args with
      | some e => ⟨[(call.id, ⟨.rejection, serializeError e, 0⟩)], false⟩
      | none => ⟨[(call.id, executeFn (registration.handler args) execTime)], true⟩

/-- The observable outcome of one `listJobs` long-poll request
(`polling.ts` lines 96-107): either the HTTP layer produced a response —
with an optional numeric `retry-after` header (already parsed; absent or
non-numeric headers are `none`, matching the `retryAfterHeader &&
!isNaN(Number(retryAfterHeader))` guard on line 110), a status, and a body of
job messages (meaningful when the status is 200) — or the request itself
failed (network error, promise rejection before any response). -/
inductive PollResponse where
  | http (retryAfter : Option Int) (status : Nat) (jobs : List JobMessage) : PollResponse
  | networkError : PollResponse

/-- The mutable state of a `PollingAgent` together with the loop-local
failure counter of `runLoop` (`polling.ts` lines 21-29, 62-87).
`registrations` is instrumentation counting `registerMachine` calls. -/
structure LoopState where
  polling : Bool
  failureCount : Nat
  clusterId : String
  retryAfter : Int
  registrations : Nat
deriving DecidableEq

/-- The observable effect of one `pollIteration`: updated agent state, the
results posted for dispatched jobs, and whether the iteration threw. -/
structure IterResult where
  state : LoopState
  posted : List (String × ExecResult)
  threw : Bool

/-- `polling.ts` lines 89-136, `PollingAgent.pollIteration`: throw if the
cluster id is missing; issue the long poll; on any response, adopt a numeric
`retry-after` header as the new sleep interval; on status 410, call
`registerMachine` (counted in `registrations`); throw unless the status is
200; otherwise dispatch every returned job through `processCall` (the posts
of all jobs are gathered; `Promise.allSettled` isolates per-job failures). -/
def pollIteration (tools : List ToolRegistration) (resp : PollResponse)
    (s : LoopState) : IterResult :=
  if s.clusterId = "" then ⟨s, [], true⟩
  else
    match resp with
    | .networkError => ⟨s, [], true⟩
    | .http retryAfter status jobs =>
      let s₁ := { s with retryAfter := retryAfter.getD s.retryAfter }
      let s₂ :=
        if status = 410 then { s₁ with registrations := s₁.registrations + 1 } else s₁
      if status ≠ 200 then ⟨s₂, [], true⟩
      else ⟨s₂, (jobs.map (fun j => (processCall tools j 0).posted)).flatten, false⟩

/-- `polling.ts` lines 62-87, one pass of the `while (this.polling)` body of
`runLoop`: when `polling` is false the loop body does not run; otherwise the
iteration is attempted, a throw increments `failureCount`, and success resets
it to 0. No failure threshold is consulted and `polling` is never cleared by
the loop itself — only `stop()` clears it. -/
def runLoopStep (tools : List ToolRegistration) (s : LoopState)
    (resp : PollResponse) : LoopState × List (String × ExecResult) :=
  if s.polling = false then (s, [])
  else
    let r := pollIteration tools resp s
    if r.threw then ({ r.state with failureCount := r.state.failureCount + 1 }, r.posted)
    else ({ r.state with failureCount := 0 }, r.posted)

/-- The poll loop run over a finite trace of poll responses, starting from
`runLoop`'s initial state (`polling := true`, `failureCount := 0`). -/
def runLoop (tools : List ToolRegistration) (s : LoopState)
    (resps : List PollResponse) : LoopState :=
  resps.foldl (fun st r => (runLoopStep tools st r).1) s

/-- The errors `AgentRPC.register` can throw (`agentrpc.ts` lines 154-192),
identified by kind. -/
inductive RegisterError where
  | duplicateName (name : String) : RegisterError
  | windowClosed : RegisterError
  | handlerNotFunction : RegisterError
deriving DecidableEq

/-- The registration-relevant state of an `AgentRPC` client
(`agentrpc.ts` lines 49-59): the tools registry (string-keyed object,
insertion-ordered) and the number of started polling agents. -/
structure ClientState where
  toolsRegistry : List (String × ToolRegistration)
  pollingAgents : Nat

/-- `agentrpc.ts` lines 154-192, `AgentRPC.register`: throw a duplicate-name
error if the name is already a key of the registry; then throw a
window-closed error if a polling agent exists (the listener was started);
then throw if the handler is not a function (`handlerIsFunction` carries the
`typeof` test, always true for handlers representable in this embedding);
otherwise store the registration under its name. The registry is a value
here, so an error leaves the caller's registry unchanged by construction. -/
def register (s : ClientState) (r : ToolRegistration)
    (handlerIsFunction : Bool) : Except RegisterError ClientState :=
  if (s.toolsRegistry.lookup r.name).isSome then
    .error (.duplicateName r.name)
  else if s.pollingAgents > 0 then
    .error .windowClosed
  else if handlerIsFunction = false then
    .error .handlerNotFunction
  else
    .ok { s with toolsRegistry := s.toolsRegistry ++ [(r.name, r)] }

/-- `agentrpc.ts` lines 86-93: `apiSecret.split("_")` destructured as
`[prefix, clusterId, rand]` (segments beyond the third are ignored, missing
segments are `undefined`, conflated here with `""` — both are falsy), then
`prefix !== "sk" || !clusterId || !rand` throws; on success the stored
cluster id is the second segment. Returns the stored cluster id. -/
def parseSecret (secret : String) : Option String :=
  let parts := splitUnderscore secret
  let p0 := parts.getD 0 ""
  let p1 := parts.getD 1 ""
  let p2 := parts.getD 2 ""
  if p0 ≠ "sk" ∨ p1 = "" ∨ p2 = "" then none else some p1

end NodeSDK

/-- The validity criterion exactly as claim C10 words it: the first
underscore-separated segment is "sk" and the second and third segments are
non-empty; on success the cluster id is the second segment. Stated
independently of either implementation for comparison with them. -/
def claimSecretValid (secret : String) : Bool :=
  let parts := splitUnderscore secret
  decide (parts.getD 0 "" = "sk") && decide (parts.getD 1 "" ≠ "")
    && decide (parts.getD 2 "" ≠ "")

/-- The cluster id named by claim C10: the second underscore-separated
segment of the secret. -/
def claimClusterId (secret : String) : String :=
  (splitUnderscore secret).getD 1 ""

namespace GoSDK

/-- `sdk-go/polling.go` line 19: the consecutive-failure threshold. -/
def MaxConsecutivePollFailures : Nat := 50

/-- `sdk-go/polling.go` lines 39-43: a poll message. A missing `input` field
decodes to a nil interface, modelled as `none`. -/
structure CallMessage where
  id : String
  function : String
  input : Option JsonValue

/-- `sdk-go/polling.go` lines 49-53: the posted result body (classification
and payload; the wall-clock `meta.functionExecutionTime` is not modelled). -/
structure CallResult where
  result : JsonValue
  resultType : String

/-- One return value of a Go handler, as seen by the classification loop in
`handleMessage` (`polling.go` lines 272-295): a plain value, an error-typed
value (`none` = nil error), an `Interrupt` value, or an `*Interrupt`
(`none` = nil pointer). -/
inductive GoReturnValue where
  | value (v : JsonValue) : GoReturnValue
  | errVal (message : Option String) : GoReturnValue
  | interrupt (p : JsonValue) : GoReturnValue
  | interruptPtr (p : Option JsonValue) : GoReturnValue

/-- `v.Interface()` of a return value, serialized as JSON: a nil error or nil
interrupt pointer marshals to null, a non-nil error is represented by its
message, interrupts by their structured content. -/
def goInterface : GoReturnValue → JsonValue
  | .value v => v
  | .errVal none => .null
  | .errVal (some m) => .str m
  | .interrupt p => p
  | .interruptPtr none => .null
  | .interruptPtr (some p) => p

/-- The classification loop of `handleMessage` (`polling.go` lines 269-295):
starting from `resultType = "resolution"` with the first return value, scan
all return values; the first non-nil error-typed value forces `"rejection"`
with payload `err.Error()` (the bare message string) and breaks; any
(non-nil) `Interrupt` encountered switches to `"interrupt"` with the
interrupt as payload and the scan continues. -/
def classifyLoop : List GoReturnValue → String × JsonValue → String × JsonValue
  | [], acc => acc
  | v :: rest, acc =>
    match v with
    | .errVal (some m) => ("rejection", .str m)
    | .interrupt p => classifyLoop rest ("interrupt", p)
    | .interruptPtr (some p) => classifyLoop rest ("interrupt", p)
    | _ => classifyLoop rest acc

/-- Classification of a handler's full return-value list (`polling.go` lines
269-295). Go reads `returnValues[0].Interface()` unconditionally; handlers
with no return values are outside this model. -/
def classify (returnValues : List GoReturnValue) : String × JsonValue :=
  classifyLoop returnValues ("resolution", goInterface (returnValues.headD (.value .null)))

/-- A registered Go tool as `handleMessage` consumes it. `decode` is
modelled from the spec: it stands for `json.Unmarshal` of the job input into
the handler's single struct argument via `reflect` (the reflection machinery
is an external collaborator per spec §2); `ok` carries the decoded argument,
`error` carries Go's unmarshal error text. `zeroValue` is the freshly
allocated `reflect.New(argType)` value that remains in place when unmarshal
fails. `handler` yields the call's return values. -/
structure GoTool where
  name : String
  decode : Option JsonValue → Except String JsonValue
  zeroValue : JsonValue
  handler : JsonValue → List GoReturnValue

/-- The observable effect of `handleMessage`: the results persisted via
`persistJobResult` (as `(jobId, result)` pairs, in order) and whether the
handler was invoked. -/
structure GoCallOutcome where
  posted : List (String × CallResult)
  handlerInvoked : Bool

/-- `sdk-go/polling.go` lines 224-311, `pollingAgent.handleMessage`: unknown
tool names are logged and dropped with nothing persisted. Otherwise the input
is marshalled (`json.Marshal` of a value decoded from JSON cannot fail, so
that rejection branch is dead) and unmarshalled into the argument struct; an
unmarshal error persists a `"rejection"` carrying the error text — and then,
because the source has no early return there, the handler is still called on
the zero-valued argument and its classified result is persisted as well. -/
def handleMessage (tools : List GoTool) (msg : CallMessage) : GoCallOutcome :=
  match tools.find? (fun t => t.name == msg.function) with
  | none => ⟨[], false⟩
  | some fn =>
    let decoded := fn.decode msg.input
    let pre : List (String × CallResult) :=
      match decoded with
      | .error e => [(msg.id, ⟨.str e, "rejection"⟩)]
      | .ok _ => []
    let arg := match decoded with
      | .error _ => fn.zeroValue
      | .ok v => v
    let classified := classify (fn.handler arg)
    ⟨pre ++ [(msg.id, ⟨classified.2, classified.1⟩)], true⟩

/-- The state of the `Listen` polling goroutine (`polling.go` lines 124-147):
whether the context has been cancelled (`Unlisten` called), the failure
counter, and an instrumentation count of executed polls. -/
structure ListenState where
  stopped : Bool
  failureCount : Nat
  polls : Nat
deriving DecidableEq

/-- One iteration of the `Listen` goroutine's `for` loop (`polling.go` lines
126-146): a cancelled context returns (no further polls); otherwise `poll()`
runs, and on error the failure counter is incremented and, when it exceeds
`MaxConsecutivePollFailures`, `Unlisten` cancels the context. The counter is
never reset on a successful poll. -/
def listenStep (s : ListenState) (pollErred : Bool) : ListenState :=
  if s.stopped then s
  else
    let s₁ := { s with polls := s.polls + 1 }
    if pollErred then
      let fc := s₁.failureCount + 1
      { s₁ with
        failureCount := fc
        stopped := decide (fc > MaxConsecutivePollFailures) }
    else s₁

/-- The `Listen` goroutine run over a finite trace of poll outcomes
(`true` = the poll returned an error), from the initial state
`failureCount := 0` (`polling.go` line 125). -/
def listen (trace : List Bool) : ListenState :=
  trace.foldl listenStep ⟨false, 0, 0⟩

/-- `polling.go` lines 194-200: every `Retry-After` header value that
`strconv.Atoi` parses overwrites `retryAfter`; header values are carried
pre-parsed (`none` = not an integer). The last parseable value wins;
an absent header (empty list) leaves the interval unchanged. -/
def updateRetryAfter (values : List (Option Int)) (current : Int) : Int :=
  values.foldl (fun acc v => v.getD acc) current

/-- The errors `pollingAgent.Register` can return (`polling.go` lines
55-112), identified by kind. -/
inductive GoRegisterError where
  | windowClosed : GoRegisterError
  | duplicateName (name : String) : GoRegisterError
  | wrongArity (name : String) : GoRegisterError
  | argNotStruct (name : String) : GoRegisterError
  | schemaExternalRef (name : String) : GoRegisterError
deriving DecidableEq

/-- A tool as passed to `pollingAgent.Register`, with the reflection facts
the source inspects: the handler's argument count, whether its (pointer-
dereferenced) first argument is a struct, and whether the derived schema
contains a `$ref` to an external definition (schema derivation is an
external collaborator per spec §2). -/
structure GoToolInput where
  name : String
  numIn : Nat
  argIsStruct : Bool
  schemaHasExternalRef : Bool
deriving DecidableEq

/-- The registration-relevant state of a `pollingAgent` (`polling.go` lines
31-37, 358-360): the tools map and whether `Listen` has installed a cancel
function (`isPolling`). -/
structure GoAgentState where
  tools : List (String × GoToolInput)
  cancelSet : Bool
deriving DecidableEq

/-- `sdk-go/polling.go` lines 55-112, `pollingAgent.Register`: refuse while
polling; refuse names already in the map; require exactly one handler
argument, of struct (or pointer-to-struct) kind; refuse schemas with external
`$ref`s; otherwise store the tool under its name. An error leaves the tools
map unchanged by construction. -/
def goRegister (s : GoAgentState) (fn : GoToolInput) :
    Except GoRegisterError GoAgentState :=
  if s.cancelSet then .error .windowClosed
  else if (s.tools.lookup fn.name).isSome then .error (.duplicateName fn.name)
  else if fn.numIn ≠ 1 then .error (.wrongArity fn.name)
  else if fn.argIsStruct = false then .error (.argNotStruct fn.name)
  else if fn.schemaHasExternalRef then .error (.schemaExternalRef fn.name)
  else .ok { s with tools := s.tools ++ [(fn.name, fn)] }

/-- `sdk-go/agentrpc.go` lines 60-78 (`New`): `strings.Split(secret, "_")`
must have exactly three parts with the first equal to "sk" (no emptiness
check on the others); the stored cluster id is the second part. Returns the
stored cluster id. -/
def goParseSecret (secret : String) : Option String :=
  let parts := splitUnderscore secret
  if parts.length ≠ 3 ∨ parts.getD 0 "" ≠ "sk" then none
  else some (parts.getD 1 "")

end GoSDK

/-- The length of the longest run of consecutive `true` entries (failed
polls) in a poll-outcome trace. -/
def maxFailRun (trace : List Bool) : Nat :=
  (trace.foldl
    (fun acc b => if b then (acc.1 + 1, max acc.2 (acc.1 + 1)) else (0, acc.2))
    ((0 : Nat), (0 : Nat))).2

/-- A poll-outcome trace with two failure runs of length 30 separated by one
successful poll: no run of consecutive failures longer than 30. -/
def mixedFailureTrace : List Bool :=
  List.replicate 30 true ++ false :: List.replicate 30 true

/-- The Node loop state as `runLoop` enters its while body: `polling` just
set, no failures, the default 10-second interval. -/
def nodeLoopStart : NodeSDK.LoopState := ⟨true, 0, "cluster", 10, 0⟩

/-- A Go tool whose handler takes one struct argument: decoding accepts JSON
objects and reports Go's unmarshal type error on anything else; the handler
echoes its argument. -/
def structTool : GoSDK.GoTool where
  name := "echo"
  decode := fun input =>
    match input with
    | some (.obj fields) => .ok (.obj fields)
    | _ => .error "json: cannot unmarshal value into Go struct argument"
  zeroValue := .obj []
  handler := fun arg => [.value arg]

/-- A job for `echo` whose input is the JSON string "x" — not an object, so
unmarshalling into the struct argument fails. -/
def stringInputMsg : GoSDK.CallMessage := ⟨"j1", "echo", some (.str "x")⟩

/-- A Node registration of `echo` mirroring `structTool`. -/
def nodeEchoTool : NodeSDK.ToolRegistration :=
  ⟨"echo", fun _ => none, fun v => .value v, none, none⟩

/-- The Node-side job with the same string input. -/
def nodeStringInputCall : NodeSDK.JobMessage := ⟨"j1", "echo", some (.str "x")⟩

/-- A mid-run Node loop state: three accumulated failures, no
re-registrations yet. -/
def c3State : NodeSDK.LoopState := ⟨true, 3, "cluster", 10, 0⟩

/-- A Node registration whose schema rejects every payload. -/
def c4Tool : NodeSDK.ToolRegistration :=
  ⟨"t", fun _ => some ⟨"ZodError", "Required"⟩, fun _ => .value .null, none, none⟩

/-- A Go tool whose handler returns only a non-nil error with message
"boom". -/
def boomTool : GoSDK.GoTool where
  name := "boom"
  decode := fun _ => .ok (.obj [])
  zeroValue := .obj []
  handler := fun _ => [.errVal (some "boom")]

/-- A well-formed job for `boom`. -/
def boomMsg : GoSDK.CallMessage := ⟨"j1", "boom", some (.obj [])⟩

/-- A Node registration whose handler throws an error named "Error" with
message "boom". -/
def c5NodeTool : NodeSDK.ToolRegistration :=
  ⟨"boom", fun _ => none, fun _ => .thrown ⟨"Error", "boom"⟩, none, none⟩

/-- A well-formed Node job for `boom`. -/
def c5NodeCall : NodeSDK.JobMessage := ⟨"j1", "boom", some (.obj [])⟩

/-- A Go tool-registration input that passes every reflection check. -/
def echoToolInput : GoSDK.GoToolInput := ⟨"echo", 1, true, false⟩

/-- A Go agent that has registered `echo` and already started polling. -/
def c6GoState : GoSDK.GoAgentState := ⟨[("echo", echoToolInput)], true⟩

/-- A Node registration named "a". -/
def c9NodeTool : NodeSDK.ToolRegistration :=
  ⟨"a", fun _ => none, fun v => .value v, none, none⟩

/-- A Node client that has registered "a" and started its listener. -/
def c9NodeState : NodeSDK.ClientState := ⟨[("a", c9NodeTool)], 1⟩

/-- A second registration re-using the name "a". -/
def c9DupTool : NodeSDK.ToolRegistration :=
  ⟨"a", fun _ => none, fun _ => .value .null, none, none⟩

/-- A Node client that has registered `echo` and has not started listening. -/
def c6NodeState : NodeSDK.ClientState := ⟨[("echo", nodeEchoTool)], 0⟩

set_option maxRecDepth 20000 in
/-- Claim C1: "after the consecutive-failure counter exceeds the threshold of
50 the loop transitions to Stopped and performs no further poll iterations;
after 50 or fewer consecutive failures it does not stop." The code violates
this: the Go `Listen` loop never resets its counter on a successful poll, so
on a trace whose longest consecutive-failure run is only 30 it still stops
(and indeed performs no further polls: 52 of the 61 iterations poll); and
the Node `runLoop` consults no threshold at all, so after 51 consecutive
failed iterations it is still polling with `failureCount = 51`. From a fresh
start Go does stop on the 51st and not the 50th straight failure, matching
the claim's calibration of the threshold. -/
theorem C1_failure_threshold_code_bug :
    maxFailRun mixedFailureTrace = 30 ∧
    (GoSDK.listen mixedFailureTrace).stopped = true ∧
    (GoSDK.listen mixedFailureTrace).polls = 52 ∧
    (GoSDK.listen (List.replicate 50 true)).stopped = false ∧
    (GoSDK.listen (List.replicate 51 true)).stopped = true ∧
    (NodeSDK.runLoop [] nodeLoopStart (List.replicate 51 .networkError)).polling = true ∧
    (NodeSDK.runLoop [] nodeLoopStart (List.replicate 51 .networkError)).failureCount = 51 := by
  refine ⟨by decide, by decide, by decide, by decide, by decide, by decide, by decide⟩

/-- Claim C2: "the executor produces exactly one outcome and posts exactly
one result per valid job, never zero and never more than one." The Go
`handleMessage` violates this: with a registered tool and an input that fails
to unmarshal into the handler's struct argument, it persists a rejection for
the unmarshal error and then — lacking an early return — still invokes the
handler on the zero value and persists its result too: two results for the
same job id. The Node `processCall` posts exactly one for the same job. -/
theorem C2_double_post_code_bug :
    (GoSDK.handleMessage [structTool] stringInputMsg).posted =
      [("j1", ⟨.str "json: cannot unmarshal value into Go struct argument", "rejection"⟩),
       ("j1", ⟨.obj [], "resolution"⟩)] ∧
    (GoSDK.handleMessage [structTool] stringInputMsg).handlerInvoked = true ∧
    (NodeSDK.processCall [nodeEchoTool] nodeStringInputCall 0).posted.length = 1 :=
  ⟨rfl, rfl, rfl⟩

/-- Claim C3 counterexample: the claim says a "session gone" (410) poll
response does not increment the consecutive-failure counter. In the Node
`pollIteration`, a 410 response re-registers and then still falls into the
`status !== 200` throw, so `runLoop` increments the counter: from the state
with 3 failures, one 410 iteration yields 4 failures (and exactly one
re-registration). -/
theorem C3_gone_counts_as_failure_counterexample :
    (NodeSDK.runLoopStep [] c3State (.http none 410 [])).1.failureCount = 4 ∧
    c3State.failureCount = 3 ∧
    (NodeSDK.runLoopStep [] c3State (.http none 410 [])).1.registrations = 1 ∧
    c3State.registrations = 0 := by
  refine ⟨by decide, by decide, by decide, by decide⟩

/-- Claim C3, amended: a poll iteration that observes a 410 response performs
exactly one re-registration call before the next poll attempt, dispatches no
jobs from that iteration, and — contrary to the claim — is treated as a
failed poll, incrementing the consecutive-failure counter (a later successful
iteration resets it). The error branch returns no new registry or jobs, so
the step's full effect is exactly this state update. -/
theorem C3_gone_triggers_one_reregistration
    (tools : List NodeSDK.ToolRegistration) (s : NodeSDK.LoopState)
    (ra : Option Int) (jobs : List NodeSDK.JobMessage)
    (hp : s.polling = true) (hc : s.clusterId ≠ "") :
    NodeSDK.runLoopStep tools s (.http ra 410 jobs) =
      ({ s with retryAfter := ra.getD s.retryAfter,
                registrations := s.registrations + 1,
                failureCount := s.failureCount + 1 }, []) := by
  simp [NodeSDK.runLoopStep, NodeSDK.pollIteration, hp, hc]

/-- Witness for C3's amended theorem at a concrete state and response. -/
theorem C3_witness :
    NodeSDK.runLoopStep [] ⟨true, 3, "cluster", 10, 0⟩ (.http none 410 []) =
      (⟨true, 4, "cluster", 10, 1⟩, []) :=
  C3_gone_triggers_one_reregistration [] ⟨true, 3, "cluster", 10, 0⟩ none []
    rfl (by decide)

/-- Claim C4: for a job addressed to a registered tool whose input payload is
not a structured object, or whose payload fails validation against the stored
schema, `processCall` posts exactly one `rejection` whose content is a
serialized error (name and message), with `functionExecutionTime` 0, and the
registered handler is never invoked. -/
theorem C4_invalid_input_rejected_without_handler
    (tools : List NodeSDK.ToolRegistration) (call : NodeSDK.JobMessage)
    (reg : NodeSDK.ToolRegistration) (execTime : Nat)
    (hfind : tools.find? (fun fn => fn.name == call.function) = some reg)
    (hbad : NodeSDK.isStructuredObject call.input = false ∨
            (∃ e, reg.validate (call.input.getD .null) = some e)) :
    ∃ e : JsError,
      NodeSDK.processCall tools call execTime =
        ⟨[(call.id, ⟨.rejection, serializeError e, 0⟩)], false⟩ := by
  unfold NodeSDK.processCall
  rw [hfind]
  rcases h : NodeSDK.isStructuredObject call.input with _ | _
  · exact ⟨⟨"Error", NodeSDK.invalidFormatMessage⟩, by simp [h]⟩
  · rcases hbad with hbad | ⟨e, he⟩
    · rw [h] at hbad; exact absurd hbad (by simp)
    · exact ⟨e, by simp [h, he]⟩

/-- Witness for C4 at a concrete registration and a job with no input
payload (`undefined`, hence not a structured object). -/
theorem C4_witness :
    ∃ e : JsError,
      NodeSDK.processCall [c4Tool] ⟨"j1", "t", none⟩ 0 =
        ⟨[("j1", ⟨.rejection, serializeError e, 0⟩)], false⟩ :=
  C4_invalid_input_rejected_without_handler [c4Tool] ⟨"j1", "t", none⟩ c4Tool 0
    rfl (Or.inl rfl)

/-- Claim C5 counterexample: the claim says the rejection payload for a
handler-signalled error contains at minimum the error's name and message. In
the Go SDK a handler returning the error "boom" yields the payload
`"boom"` — the bare message string, carrying no `name` (or any field at
all). -/
theorem C5_go_payload_lacks_name_counterexample :
    GoSDK.handleMessage [boomTool] boomMsg =
      ⟨[("j1", ⟨.str "boom", "rejection"⟩)], true⟩ ∧
    (JsonValue.str "boom").lookupField "name" = none := by
  exact ⟨rfl, rfl⟩

/-- Claim C5, amended: a handler that signals an error yields exactly one
posted outcome with resultType `rejection` whose payload carries the error's
message; in the Node SDK the payload is the serialized error with both `name`
and `message` fields, while the Go SDK's payload is the bare message string
(no name). -/
theorem C5_handler_error_yields_rejection :
    (∀ (tools : List NodeSDK.ToolRegistration) (call : NodeSDK.JobMessage)
       (reg : NodeSDK.ToolRegistration) (e : JsError) (t : Nat),
       tools.find? (fun fn => fn.name == call.function) = some reg →
       NodeSDK.isStructuredObject call.input = true →
       reg.validate (call.input.getD .null) = none →
       reg.handler (call.input.getD .null) = .thrown e →
       NodeSDK.processCall tools call t =
         ⟨[(call.id, ⟨.rejection, serializeError e, t⟩)], true⟩ ∧
       (serializeError e).lookupField "name" = some (.str e.name) ∧
       (serializeError e).lookupField "message" = some (.str e.message)) ∧
    (∀ (tools : List GoSDK.GoTool) (msg : GoSDK.CallMessage)
       (fn : GoSDK.GoTool) (arg : JsonValue) (m : String),
       tools.find? (fun t => t.name == msg.function) = some fn →
       fn.decode msg.input = .ok arg →
       fn.handler arg = [.errVal (some m)] →
       GoSDK.handleMessage tools msg =
         ⟨[(msg.id, ⟨.str m, "rejection"⟩)], true⟩) := by
  constructor
  · intro tools call reg e t hfind hobj hval hthrow
    refine ⟨?_, ?_, ?_⟩
    · unfold NodeSDK.processCall
      rw [hfind]
      simp [hobj, hval, hthrow, NodeSDK.executeFn]
    · rfl
    · rfl
  · intro tools msg fn arg m hfind hdec hret
    simp [GoSDK.handleMessage, hfind, hdec, hret, GoSDK.classify,
      GoSDK.classifyLoop, GoSDK.goInterface]

/-- Witness for C5's amended theorem: the Node handler throwing
("Error", "boom") and the Go handler returning the error "boom". -/
theorem C5_witness :
    NodeSDK.processCall [c5NodeTool] c5NodeCall 7 =
      ⟨[("j1", ⟨.rejection, serializeError ⟨"Error", "boom"⟩, 7⟩)], true⟩ ∧
    GoSDK.handleMessage [boomTool] boomMsg =
      ⟨[("j1", ⟨.str "boom", "rejection"⟩)], true⟩ :=
  ⟨(C5_handler_error_yields_rejection.1 [c5NodeTool] c5NodeCall c5NodeTool
      ⟨"Error", "boom"⟩ 7 rfl rfl rfl rfl).1,
   C5_handler_error_yields_rejection.2 [boomTool] boomMsg boomTool (.obj [])
      "boom" rfl rfl rfl⟩

/-- Claim C6 counterexample: the claim says a registration re-using an
existing name always fails with a duplicate-name error. The Go `Register`
checks `isPolling` first, so once the agent polls, re-registering `echo`
fails with the window-closed error, not the duplicate-name error. -/
theorem C6_go_polling_duplicate_counterexample :
    GoSDK.goRegister c6GoState echoToolInput = .error .windowClosed ∧
    GoSDK.GoRegisterError.windowClosed ≠ .duplicateName "echo" :=
  ⟨rfl, by decide⟩

/-- Claim C6, amended: registering a name that is already present always
fails and leaves the registry unchanged (both registers are pure: an error
carries no new state, so the first registration — handler, schema, and
config — survives untouched). The reported error is the duplicate-name error,
except in the Go SDK once polling has started, where the window-closed check
runs first and its error is reported instead. -/
theorem C6_duplicate_registration_rejected :
    (∀ (s : NodeSDK.ClientState) (r : NodeSDK.ToolRegistration) (hf : Bool),
        (s.toolsRegistry.lookup r.name).isSome = true →
        NodeSDK.register s r hf = .error (.duplicateName r.name)) ∧
    (∀ (s : GoSDK.GoAgentState) (fn : GoSDK.GoToolInput),
        (s.tools.lookup fn.name).isSome = true →
        (s.cancelSet = false →
          GoSDK.goRegister s fn = .error (.duplicateName fn.name)) ∧
        (s.cancelSet = true →
          GoSDK.goRegister s fn = .error .windowClosed)) := by
  constructor
  · intro s r hf h
    simp [NodeSDK.register, h]
  · intro s fn h
    constructor
    · intro hc; simp [GoSDK.goRegister, h, hc]
    · intro hc; simp [GoSDK.goRegister, hc]

/-- Witness for C6's amended theorem: a Node duplicate, a Go duplicate before
polling, and a Go duplicate while polling. -/
theorem C6_witness :
    NodeSDK.register c6NodeState nodeEchoTool true = .error (.duplicateName "echo") ∧
    GoSDK.goRegister ⟨[("echo", echoToolInput)], false⟩ echoToolInput =
      .error (.duplicateName "echo") ∧
    GoSDK.goRegister c6GoState echoToolInput = .error .windowClosed :=
  ⟨C6_duplicate_registration_rejected.1 c6NodeState nodeEchoTool true rfl,
   (C6_duplicate_registration_rejected.2 ⟨[("echo", echoToolInput)], false⟩
      echoToolInput rfl).1 rfl,
   (C6_duplicate_registration_rejected.2 c6GoState echoToolInput rfl).2 rfl⟩

/-- Claim C7: a job message whose tool name matches no registered tool is
dropped by both executors with nothing posted and the handler not invoked,
and a Node poll iteration delivering such a job completes without throwing
(so the loop continues and its failure counter resets). -/
theorem C7_unknown_tool_dropped
    (tools : List NodeSDK.ToolRegistration) (call : NodeSDK.JobMessage) (t : Nat)
    (gotools : List GoSDK.GoTool) (msg : GoSDK.CallMessage)
    (h1 : tools.find? (fun fn => fn.name == call.function) = none)
    (h2 : gotools.find? (fun tl => tl.name == msg.function) = none) :
    NodeSDK.processCall tools call t = ⟨[], false⟩ ∧
    GoSDK.handleMessage gotools msg = ⟨[], false⟩ ∧
    (∀ (s : NodeSDK.LoopState) (ra : Option Int),
      s.clusterId ≠ "" →
      (NodeSDK.pollIteration tools (.http ra 200 [call]) s).threw = false ∧
      (NodeSDK.pollIteration tools (.http ra 200 [call]) s).posted = []) := by
  refine ⟨?_, ?_, ?_⟩
  · simp [NodeSDK.processCall, h1]
  · simp [GoSDK.handleMessage, h2]
  · intro s ra hc
    constructor <;> simp [NodeSDK.pollIteration, hc, NodeSDK.processCall, h1]

/-- Witness for C7 with empty registries and the tool name "nope". -/
theorem C7_witness :
    NodeSDK.processCall [] ⟨"j1", "nope", none⟩ 0 = ⟨[], false⟩ ∧
    GoSDK.handleMessage [] ⟨"j1", "nope", none⟩ = ⟨[], false⟩ :=
  ⟨(C7_unknown_tool_dropped [] ⟨"j1", "nope", none⟩ 0 [] ⟨"j1", "nope", none⟩
      rfl rfl).1,
   (C7_unknown_tool_dropped [] ⟨"j1", "nope", none⟩ 0 [] ⟨"j1", "nope", none⟩
      rfl rfl).2.1⟩

/-- Claim C8: a poll response carrying a numeric retry-after directive of N
seconds makes N the agent's sleep interval for the next iteration (whatever
the response status — the Node code reads the header before its status
checks), and a response without the directive leaves the interval unchanged;
likewise the Go header scan adopts a parseable Retry-After value and keeps
the current interval when the header is absent. -/
theorem C8_retry_after_adopted
    (tools : List NodeSDK.ToolRegistration) (s : NodeSDK.LoopState)
    (n : Int) (status : Nat) (jobs : List NodeSDK.JobMessage)
    (hc : s.clusterId ≠ "") :
    (NodeSDK.pollIteration tools (.http (some n) status jobs) s).state.retryAfter = n ∧
    (NodeSDK.pollIteration tools (.http none status jobs) s).state.retryAfter =
      s.retryAfter ∧
    (∀ current : Int,
      GoSDK.updateRetryAfter [some n] current = n ∧
      GoSDK.updateRetryAfter [] current = current) := by
  refine ⟨?_, ?_, fun current => ⟨rfl, rfl⟩⟩ <;>
    by_cases h410 : status = 410 <;> by_cases h200 : status = 200 <;>
      simp [NodeSDK.pollIteration, hc, h410, h200]

/-- Witness for C8: a 200 response with retry-after 99 from the fresh state,
and the same response with no retry-after header. -/
theorem C8_witness :
    (NodeSDK.pollIteration [] (.http (some 99) 200 []) nodeLoopStart).state.retryAfter = 99 ∧
    (NodeSDK.pollIteration [] (.http none 200 []) nodeLoopStart).state.retryAfter = 10 :=
  ⟨(C8_retry_after_adopted [] nodeLoopStart 99 200 [] (by decide)).1,
   (C8_retry_after_adopted [] nodeLoopStart 99 200 [] (by decide)).2.1⟩

/-- Claim C9 counterexample: the claim says every register call after the
listener has started fails with the registration-window-closed error. The
Node `register` checks for a duplicate name first, so re-registering "a"
after `listen` fails with the duplicate-name error instead. -/
theorem C9_duplicate_after_listen_counterexample :
    NodeSDK.register c9NodeState c9DupTool true = .error (.duplicateName "a") ∧
    NodeSDK.RegisterError.duplicateName "a" ≠ .windowClosed :=
  ⟨rfl, by decide⟩

/-- Claim C9, amended: once the agent is listening (a polling agent exists /
the Go cancel function is set), every register call fails and adds nothing
(both registers are pure, so an error leaves the registry as it was). The
error is the registration-window-closed error — except in the Node SDK when
the name is already registered, where the duplicate-name check runs first
and its error is reported instead; the Go SDK always reports window-closed. -/
theorem C9_register_after_listen_fails :
    (∀ (s : NodeSDK.ClientState) (r : NodeSDK.ToolRegistration) (hf : Bool),
        s.pollingAgents > 0 →
        (s.toolsRegistry.lookup r.name = none →
            NodeSDK.register s r hf = .error .windowClosed) ∧
        (∀ r₀, s.toolsRegistry.lookup r.name = some r₀ →
            NodeSDK.register s r hf = .error (.duplicateName r.name))) ∧
    (∀ (s : GoSDK.GoAgentState) (fn : GoSDK.GoToolInput),
        s.cancelSet = true → GoSDK.goRegister s fn = .error .windowClosed) := by
  constructor
  · intro s r hf hpoll
    constructor
    · intro hnone; simp [NodeSDK.register, hnone, hpoll]
    · intro r₀ hsome; simp [NodeSDK.register, hsome]
  · intro s fn hc
    simp [GoSDK.goRegister, hc]

/-- Witness for C9's amended theorem: a fresh name and a duplicate name after
the Node listener started, and any registration on a polling Go agent. -/
theorem C9_witness :
    NodeSDK.register ⟨[], 1⟩ c9NodeTool true = .error .windowClosed ∧
    NodeSDK.register c9NodeState c9DupTool true = .error (.duplicateName "a") ∧
    GoSDK.goRegister ⟨[], true⟩ echoToolInput = .error .windowClosed :=
  ⟨(C9_register_after_listen_fails.1 ⟨[], 1⟩ c9NodeTool true (by decide)).1 rfl,
   (C9_register_after_listen_fails.1 c9NodeState c9DupTool true (by decide)).2
      c9NodeTool rfl,
   C9_register_after_listen_fails.2 ⟨[], true⟩ echoToolInput rfl⟩

/-- Claim C10 counterexample: the claim says construction succeeds exactly
when the first underscore-separated segment is "sk" and the second and third
are non-empty. The Go `New` instead demands exactly three segments and never
checks emptiness: "sk_a_b_c" satisfies the claim's criterion but Go rejects
it, and "sk__" fails the criterion but Go accepts it (with an empty cluster
id). -/
theorem C10_secret_parsing_counterexample :
    claimSecretValid "sk_a_b_c" = true ∧
    GoSDK.goParseSecret "sk_a_b_c" = none ∧
    claimSecretValid "sk__" = false ∧
    GoSDK.goParseSecret "sk__" = some "" := by
  refine ⟨by decide, by decide, by decide, by decide⟩

/-- Claim C10, amended: the Node constructor accepts a secret exactly when
the claim's criterion holds — first segment "sk", second and third non-empty
(segments past the third are ignored) — and stores the second segment as the
cluster id; the Go constructor accepts exactly the secrets with precisely
three underscore-separated segments whose first is "sk" (the second and
third may be empty), also storing the second segment. -/
theorem C10_secret_validation :
    (∀ secret : String,
      NodeSDK.parseSecret secret =
        if claimSecretValid secret then some (claimClusterId secret) else none) ∧
    (∀ secret : String,
      GoSDK.goParseSecret secret =
        if (splitUnderscore secret).length = 3 ∧
            (splitUnderscore secret).getD 0 "" = "sk"
        then some (claimClusterId secret) else none) := by
  constructor
  · intro secret
    simp only [NodeSDK.parseSecret, claimSecretValid, claimClusterId,
      Bool.and_eq_true, decide_eq_true_eq]
    split_ifs <;> first | rfl | tauto
  · intro secret
    simp only [GoSDK.goParseSecret, claimClusterId]
    split_ifs <;> first | rfl | tauto
